import Mathlib

/-!
# Crusoe Terraform provider: disk attachment diff and disk resource

A shallow embedding of `internal/vm/util.go` (`getDisksDiff`) and of
`internal/disk/disk_resource.go` (`formatSize`, `ImportState`, `Create`,
`Update`, `Delete`), followed by the properties proved about them.
-/

set_option autoImplicit false

namespace Crusoe

/-! ## internal/vm/util.go -/

namespace vm

/-- Modelled from the spec: the declaration of the type `vmDiskResourceModel` is not
among the sources. Its fields are the three that `getDisksDiff` reads and that
`vmToTerraformResourceModel` fills from strings of the API (`disk.Id`,
`disk.AttachmentType`, `disk.Mode`): identity, attachment kind and role. -/
structure vmDiskResourceModel where
  ID : String
  AttachmentType : String
  Mode : String
  deriving DecidableEq, Repr

/-- The `swagger.DiskAttachment` of the API client, with the three fields that
`getDisksDiff` sets. -/
structure DiskAttachment where
  AttachmentType : String
  DiskId : String
  Mode : String
  deriving DecidableEq, Repr

/-- Inner loop of the first pass of `getDisksDiff` (lines 63-70): scan `origDisks` for a
disk with the ID and the Mode of `newDisk`; `matched` becomes true at the first hit
and the scan stops (`break`). -/
def matchedInOrig (newDisk : vmDiskResourceModel) : List vmDiskResourceModel → Bool
  | [] => false
  | origDisk :: rest =>
    if newDisk.ID = origDisk.ID ∧ newDisk.Mode = origDisk.Mode then true
    else matchedInOrig newDisk rest

/-- Inner loop of the second pass of `getDisksDiff` (lines 81-88): scan `newDisks` for a
disk with the ID and the Mode of `origDisk`. -/
def matchedInNew (origDisk : vmDiskResourceModel) : List vmDiskResourceModel → Bool
  | [] => false
  | newDisk :: rest =>
    if newDisk.ID = origDisk.ID ∧ newDisk.Mode = origDisk.Mode then true
    else matchedInNew origDisk rest

/-- First outer loop of `getDisksDiff` (lines 62-78) over the remaining `newDisks`, with
the slice `disksAdded` built so far: an unmatched disk is appended. -/
def addedLoop (origDisks : List vmDiskResourceModel) :
    List vmDiskResourceModel → List DiskAttachment → List DiskAttachment
  | [], disksAdded => disksAdded
  | newDisk :: rest, disksAdded =>
    if matchedInOrig newDisk origDisks then addedLoop origDisks rest disksAdded
    else addedLoop origDisks rest
      (disksAdded ++ [{ DiskId := newDisk.ID,
                        AttachmentType := newDisk.AttachmentType,
                        Mode := newDisk.Mode }])

/-- Second outer loop of `getDisksDiff` (lines 80-92) over the remaining `origDisks`, with
the slice `disksRemoved` built so far: the ID of an unmatched disk is appended. -/
def removedLoop (newDisks : List vmDiskResourceModel) :
    List vmDiskResourceModel → List String → List String
  | [], disksRemoved => disksRemoved
  | origDisk :: rest, disksRemoved =>
    if matchedInNew origDisk newDisks then removedLoop newDisks rest disksRemoved
    else removedLoop newDisks rest (disksRemoved ++ [origDisk.ID])

/-- The function `getDisksDiff` of `util.go`: both result slices start nil (empty). -/
def getDisksDiff (origDisks newDisks : List vmDiskResourceModel) :
    List DiskAttachment × List String :=
  (addedLoop origDisks newDisks [], removedLoop newDisks origDisks [])

/-- The entry that `getDisksDiff` appends to `disksAdded` for an unmatched new disk
(the struct literal of lines 72-76). -/
def toAttachment (d : vmDiskResourceModel) : DiskAttachment :=
  { DiskId := d.ID, AttachmentType := d.AttachmentType, Mode := d.Mode }

end vm

/-! ## Go library functions used by internal/disk/disk_resource.go

A Go string is a sequence of bytes. The strings of the resource are valid UTF-8 and are
modelled as Lean strings, the bytes of a string being the UTF-8 encoding of its
characters (`utf8Bytes`); what a byte slice yields is kept as bytes. `int` is the 64-bit
integer of the platforms the provider is built for. -/

namespace disk

/-- Go `unicode.ToLower` on the characters that decide whether a lower-cased string ends
in `tib` or `gib`: an ASCII capital becomes its small letter, and U+0130 (capital I with
dot above) becomes `i`. No other character has `t`, `i`, `b` or `g` as its lower case; a
character outside these is left as it is, which changes no such suffix test. -/
def unicodeToLower (c : Char) : Char :=
  if c = Char.ofNat 0x130 then 'i' else Char.toLower c

/-- Go `strings.ToLower`: every character is mapped by `unicode.ToLower`. -/
def ToLower (s : String) : String := ⟨s.data.map unicodeToLower⟩

/-- Go `strings.HasSuffix`. -/
def HasSuffix (s suffix : String) : Bool := suffix.data.isSuffixOf s.data

/-- The bytes of a Go string: the UTF-8 encoding of its characters. -/
def utf8Bytes (s : String) : List UInt8 := s.data.flatMap String.utf8EncodeChar

/-- Go slice expression `s[:len(s)-3]`: the bytes of `s` without the last three. It is
reached only for a string of three bytes or more. -/
def dropLast3 (s : String) : List UInt8 :=
  (utf8Bytes s).take ((utf8Bytes s).length - 3)

/-- The digit loop of Go `strconv.ParseUint` in base 10: the value of a run of ASCII
digits after the value `n` read so far, `none` at a byte that is no digit. -/
def parseDigits : List UInt8 → Nat → Option Nat
  | [], n => some n
  | ch :: rest, n =>
    if 48 ≤ ch ∧ ch ≤ 57 then parseDigits rest (n * 10 + (ch.toNat - 48)) else none

/-- Go `strconv.Atoi` for a 64-bit `int`, on the bytes of its argument: an optional sign
(`-` is byte 45, `+` is byte 43), then one digit or more; a syntax error or a value
outside the range of `int` is `none`. -/
def Atoi (s : List UInt8) : Option Int :=
  match s with
  | [] => none
  | c :: rest =>
    let body := if c = 45 ∨ c = 43 then rest else c :: rest
    if body = [] then none
    else
      match parseDigits body 0 with
      | none => none
      | some un =>
        if c = 45 then
          if un ≤ 2 ^ 63 then some (-(un : Int)) else none
        else
          if un < 2 ^ 63 then some (un : Int) else none

/-- Go `strconv.Itoa`. -/
def Itoa (n : Int) : String :=
  if n < 0 then "-" ++ Nat.repr n.natAbs else Nat.repr n.natAbs

/-- Two's complement wrap-around of a 64-bit `int` result. -/
def wrapInt64 (x : Int) : Int := (x + 2 ^ 63) % 2 ^ 64 - 2 ^ 63

/-- Splitting of the characters of a string at each occurrence of `sep`. -/
def splitChars (sep : Char) : List Char → List (List Char)
  | [] => [[]]
  | c :: rest =>
    if c = sep then [] :: splitChars sep rest
    else
      match splitChars sep rest with
      | [] => [[c]]
      | field :: fields => (c :: field) :: fields

/-- Go `strings.Split` with a separator of one character. -/
def Split (s : String) (sep : Char) : List String :=
  (splitChars sep s.data).map String.mk

end disk

/-! ## Terraform plugin framework values used by the disk resource -/

namespace disk

/-- Severity of a framework diagnostic. -/
inductive Severity where
  | error
  | warning
  deriving DecidableEq, Repr

/-- A framework diagnostic: severity, summary and detail. -/
structure Diagnostic where
  severity : Severity
  summary : String
  detail : String
  deriving DecidableEq, Repr

/-- The framework type `diag.Diagnostics`. -/
abbrev Diagnostics := List Diagnostic

/-- `Diagnostics.Append`: each diagnostic is added in turn unless the collection
already contains it. -/
def Append (diags : Diagnostics) : Diagnostics → Diagnostics
  | [] => diags
  | d :: rest => if d ∈ diags then Append diags rest else Append (diags ++ [d]) rest

/-- `Diagnostics.AddError`: appends an error diagnostic with this summary and detail. -/
def AddError (diags : Diagnostics) (summary detail : String) : Diagnostics :=
  Append diags [{ severity := Severity.error, summary := summary, detail := detail }]

/-- `Diagnostics.HasError`: some diagnostic has the severity error. -/
def HasError (diags : Diagnostics) : Bool :=
  diags.any (fun d => d.severity = Severity.error)

/-- The framework type `types.String`: null, unknown or a known value. -/
inductive TfString where
  | null
  | unknown
  | value (s : String)
  deriving DecidableEq, Repr

/-- `types.String.ValueString`: the known value, the empty string when null or unknown. -/
def TfString.ValueString : TfString → String
  | TfString.value s => s
  | _ => ""

/-- The framework type `types.Int64`: null, unknown or a known value. -/
inductive TfInt64 where
  | null
  | unknown
  | value (n : Int)
  deriving DecidableEq, Repr

/-- `types.Int64.ValueInt64`: the known value, zero when null or unknown. -/
def TfInt64.ValueInt64 : TfInt64 → Int
  | TfInt64.value n => n
  | _ => 0

end disk

/-! ## internal/disk/disk_resource.go -/

namespace disk

def persistentSSD : String := "persistent-ssd"

def sharedVolume : String := "shared-volume"

def gibInTib : Int := 1024

def alternateBlockSize : Int := 512

def defaultBlockSize : Int := 4096

/-- The struct `diskResourceModel` (lines 38-47). A Terraform state of the resource is a
value of this type, an attribute never set being null. -/
structure diskResourceModel where
  ID : TfString
  ProjectID : TfString
  Location : TfString
  Name : TfString
  Type_ : TfString
  Size : TfString
  SerialNumber : TfString
  BlockSize : TfInt64
  deriving DecidableEq, Repr

/-- `State.Set(ctx, model)`: the state becomes the model, without diagnostics. -/
def StateSet (_state model : diskResourceModel) : diskResourceModel × Diagnostics :=
  (model, [])

/-- `State.SetAttribute(ctx, path.Root(name), value)` for a string value: the string
attribute with this `tfsdk` name gets the value; a name the schema does not have as a
string attribute leaves the state as it is and gives an error diagnostic. -/
def StateSetAttribute (state : diskResourceModel) (name value : String) :
    diskResourceModel × Diagnostics :=
  if name = "id" then ({ state with ID := TfString.value value }, [])
  else if name = "project_id" then ({ state with ProjectID := TfString.value value }, [])
  else if name = "location" then ({ state with Location := TfString.value value }, [])
  else if name = "name" then ({ state with Name := TfString.value value }, [])
  else if name = "type" then ({ state with Type_ := TfString.value value }, [])
  else if name = "size" then ({ state with Size := TfString.value value }, [])
  else if name = "serial_number" then
    ({ state with SerialNumber := TfString.value value }, [])
  else (state, [{ severity := Severity.error, summary := "State Write Error",
                  detail := "no string attribute at path " ++ name }])

/-- The `swagger.Operation` of the API client, as far as the resource passes it on. -/
structure Operation where
  OperationId : String
  State : String
  deriving DecidableEq, Repr

/-- The `swagger.AsyncOperationResponse` of the API client. -/
structure AsyncOperationResponse where
  Operation : Operation
  deriving DecidableEq, Repr

/-- The `swagger.DisksPostRequestV1Alpha5` of the API client. -/
structure DisksPostRequestV1Alpha5 where
  Name : String
  Location : String
  Type_ : String
  Size : String
  BlockSize : Int
  deriving DecidableEq, Repr

/-- The `swagger.DisksPatchRequest` of the API client. -/
structure DisksPatchRequest where
  Size : String
  deriving DecidableEq, Repr

/-- The `swagger.DiskV1Alpha5` of the API client, with the fields the resource reads. -/
structure DiskV1Alpha5 where
  Id : String
  Name : String
  Type_ : String
  Size : String
  Location : String
  SerialNumber : String
  BlockSize : Int
  deriving DecidableEq, Repr

/-- What the disk resource calls outside this file, each call as a function from its
arguments to its outcome. An `error` is identified with its message. The remote calls
are those of `r.client.DisksApi` and of `common.AwaitOperation(AndResolve)` over
`DiskOperationsApi.GetStorageDisksOperation`; the helpers of package `common` that take
`&resp.Diagnostics` get the diagnostics so far and return them with what they added. -/
structure Env where
  CreateDisk : DisksPostRequestV1Alpha5 → String → Except String AsyncOperationResponse
  ResizeDisk : DisksPatchRequest → String → String → Except String AsyncOperationResponse
  DeleteDisk : String → String → Except String AsyncOperationResponse
  AwaitOperationAndResolve : Operation → String → Except String DiskV1Alpha5
  AwaitOperation : Operation → String → Except String Operation
  GetFallbackProject : Diagnostics → Diagnostics × Except String String
  GetProjectIDOrFallback : Diagnostics → String → Diagnostics × Except String String
  UnpackAPIError : String → String
  uuidParse : String → Except String Unit
  quote : String → String

/-- The function `formatSize` (lines 363-386). -/
def formatSize (format sizeStr : String) : String :=
  let lowerFormatSize := ToLower format
  let lowerSize := ToLower sizeStr
  if HasSuffix lowerFormatSize "tib" && HasSuffix lowerSize "gib" then
    match Atoi (dropLast3 sizeStr) with
    | some size =>
      if size ≥ gibInTib ∧ Int.tmod size gibInTib = 0 then
        Itoa (Int.tdiv size gibInTib) ++ "TiB"
      else sizeStr
    | none => sizeStr
  else if HasSuffix lowerFormatSize "gib" && HasSuffix lowerSize "tib" then
    match Atoi (dropLast3 sizeStr) with
    | some size => Itoa (wrapInt64 (size * gibInTib)) ++ "GiB"
    | none => sizeStr
  else sizeStr

/-- The framework type `resource.ImportStateRequest`. -/
structure ImportStateRequest where
  ID : String

/-- The response of a resource method: `resource.ImportStateResponse`,
`CreateResponse`, `UpdateResponse` and `DeleteResponse` all hold the diagnostics and
the state. -/
structure Response where
  Diagnostics : Diagnostics
  State : diskResourceModel
  deriving DecidableEq, Repr

/-- The switch of `ImportState` (lines 134-145) on the number of identifiers: the
project ID to resolve, `none` in the default case. -/
def importProjectID : List String → Option String
  | [_] => some ""
  | [_, second] => some second
  | _ => none

/-- The method `diskResource.ImportState` (lines 129-169). -/
def ImportState (env : Env) (req : ImportStateRequest) (resp : Response) : Response :=
  let resourceIdentifiers := Split req.ID ','
  let diskID := resourceIdentifiers.headD ""
  match importProjectID resourceIdentifiers with
  | none =>
    { resp with Diagnostics := (AddError resp.Diagnostics "Invalid resource identifier"
        ("Expected format disk_id,project_id, got " ++ env.quote req.ID)) }
  | some projectID =>
    match env.GetProjectIDOrFallback resp.Diagnostics projectID with
    | (diags, Except.error err) =>
      { resp with Diagnostics := (AddError diags "Failed to fetch project ID"
          ("No project was specified and it was not possible to determine which project to use: "
            ++ err)) }
    | (diags, Except.ok projectID) =>
      match env.uuidParse diskID with
      | Except.error parseErr =>
        { resp with Diagnostics := (AddError diags "Invalid resource identifier"
            ("Failed to parse disk ID: " ++ parseErr)) }
      | Except.ok _ =>
        match env.uuidParse projectID with
        | Except.error parseErr =>
          { resp with Diagnostics := (AddError diags "Invalid resource identifier"
              ("Failed to parse project ID: " ++ parseErr)) }
        | Except.ok _ =>
          let set1 := StateSetAttribute resp.State "id" diskID
          let set2 := StateSetAttribute set1.1 "project_id" projectID
          { Diagnostics := Append (Append diags set1.2) set2.2, State := set2.1 }

/-- The framework type `resource.CreateRequest`: what `req.Plan.Get` decodes and the
diagnostics it returns. -/
structure CreateRequest where
  PlanGet : diskResourceModel × Diagnostics

/-- The disk type sent by `Create` (lines 180-183). -/
def createDiskType (plan : diskResourceModel) : String :=
  if plan.Type_.ValueString = "" then persistentSSD else plan.Type_.ValueString

/-- The block size sent by `Create` (lines 199-202). -/
def createBlockSize (plan : diskResourceModel) : Int :=
  if plan.BlockSize.ValueInt64 = 0 ∧ createDiskType plan = persistentSSD then defaultBlockSize
  else plan.BlockSize.ValueInt64

/-- The request that `Create` passes to `CreateDisk` (lines 204-210). -/
def createRequest (plan : diskResourceModel) : DisksPostRequestV1Alpha5 :=
  { Name := plan.Name.ValueString,
    Location := plan.Location.ValueString,
    Type_ := createDiskType plan,
    Size := plan.Size.ValueString,
    BlockSize := createBlockSize plan }

/-- `Create` from the call of `CreateDisk` on (lines 204-236), with the project ID
resolved and the diagnostics so far. -/
def createWithProject (env : Env) (plan : diskResourceModel) (projectID : String)
    (diags : Diagnostics) (state : diskResourceModel) : Response :=
  match env.CreateDisk (createRequest plan) projectID with
  | Except.error err =>
    { Diagnostics := (AddError diags "Failed to create disk"
        ("There was an error starting a create disk operation (" ++ projectID ++ "): "
          ++ env.UnpackAPIError err)),
      State := state }
  | Except.ok dataResp =>
    match env.AwaitOperationAndResolve dataResp.Operation projectID with
    | Except.error err =>
      { Diagnostics := (AddError diags "Failed to create disk"
          ("There was an error creating a disk: " ++ env.UnpackAPIError err)),
        State := state }
    | Except.ok disk =>
      let plan1 : diskResourceModel :=
        { plan with
          ID := TfString.value disk.Id,
          Type_ := TfString.value disk.Type_,
          Location := TfString.value disk.Location,
          SerialNumber := TfString.value disk.SerialNumber,
          Size := TfString.value (formatSize plan.Size.ValueString disk.Size),
          ProjectID := TfString.value projectID,
          BlockSize := TfInt64.value disk.BlockSize }
      let set := StateSet state plan1
      { Diagnostics := Append diags set.2, State := set.1 }

/-- The method `diskResource.Create` (lines 172-237). -/
def Create (env : Env) (req : CreateRequest) (resp : Response) : Response :=
  let plan := req.PlanGet.1
  let diags := Append resp.Diagnostics req.PlanGet.2
  if HasError diags then { resp with Diagnostics := diags }
  else if plan.ProjectID.ValueString = "" then
    match env.GetFallbackProject diags with
    | (diags1, Except.error err) =>
      { resp with Diagnostics := (AddError diags1 "Failed to create disk"
          ("No project was specified and it was not possible to determine which project to use: "
            ++ err)) }
    | (diags1, Except.ok project) => createWithProject env plan project diags1 resp.State
  else createWithProject env plan plan.ProjectID.ValueString diags resp.State

/-- The framework type `resource.UpdateRequest`: what `req.State.Get` and
`req.Plan.Get` decode and the diagnostics they return. -/
structure UpdateRequest where
  StateGet : diskResourceModel × Diagnostics
  PlanGet : diskResourceModel × Diagnostics

/-- The detail of the two error diagnostics of `Update`, after the sentence on what
failed. -/
def resizeAdvice : String :=
  ".\n\nMake sure the disk still exists, you are enlarging the disk," ++
    " and if the disk is attached to a VM, the VM is powered off."

/-- The method `diskResource.Update` (lines 292-334). -/
def Update (env : Env) (req : UpdateRequest) (resp : Response) : Response :=
  let diags := Append resp.Diagnostics req.StateGet.2
  if HasError diags then { resp with Diagnostics := diags }
  else
    let plan := req.PlanGet.1
    let diags1 := Append diags req.PlanGet.2
    if HasError diags1 then { resp with Diagnostics := diags1 }
    else
      match env.ResizeDisk { Size := plan.Size.ValueString }
          plan.ProjectID.ValueString plan.ID.ValueString with
      | Except.error err =>
        { resp with Diagnostics := (AddError diags1 "Failed to resize disk"
            ("There was an error starting a resize operation: " ++ env.UnpackAPIError err
              ++ resizeAdvice)) }
      | Except.ok dataResp =>
        match env.AwaitOperationAndResolve dataResp.Operation plan.ProjectID.ValueString with
        | Except.error err =>
          { resp with Diagnostics := (AddError diags1 "Failed to resize disk"
              ("There was an error resizing a disk: " ++ env.UnpackAPIError err
                ++ resizeAdvice)) }
        | Except.ok _ =>
          let set := StateSet resp.State plan
          { Diagnostics := Append diags1 set.2, State := set.1 }

/-- The framework type `resource.DeleteRequest`: what `req.State.Get` decodes and the
diagnostics it returns. -/
structure DeleteRequest where
  StateGet : diskResourceModel × Diagnostics

/-- The method `diskResource.Delete` (lines 337-361). It never writes the state. -/
def Delete (env : Env) (req : DeleteRequest) (resp : Response) : Response :=
  let state := req.StateGet.1
  let diags := Append resp.Diagnostics req.StateGet.2
  if HasError diags then { resp with Diagnostics := diags }
  else
    match env.DeleteDisk state.ProjectID.ValueString state.ID.ValueString with
    | Except.error err =>
      { resp with Diagnostics := (AddError diags "Failed to delete disk"
          ("There was an error starting a delete disk operation: "
            ++ env.UnpackAPIError err)) }
    | Except.ok dataResp =>
      match env.AwaitOperation dataResp.Operation state.ProjectID.ValueString with
      | Except.error err =>
        { resp with Diagnostics := (AddError diags "Failed to delete disk"
            ("There was an error deleting a disk: " ++ env.UnpackAPIError err)) }
      | Except.ok _ => { resp with Diagnostics := diags }

end disk

/-! ## Definitions used to state the properties -/

namespace disk

/-- The number that a run of decimal digits denotes (leading zeros allowed). -/
def decimalValue (ds : List Char) : Nat :=
  ds.foldl (fun n c => n * 10 + (c.toNat - 48)) 0

/-- The integer that a sign (`-`, `+` or none) and a run of decimal digits denote. -/
def signedValue (sign ds : List Char) : Int :=
  if sign = ['-'] then -(decimalValue ds : Int) else (decimalValue ds : Int)


/-- A state in which no attribute is set. -/
def nullState : diskResourceModel :=
  { ID := TfString.null, ProjectID := TfString.null, Location := TfString.null,
    Name := TfString.null, Type_ := TfString.null, Size := TfString.null,
    SerialNumber := TfString.null, BlockSize := TfInt64.null }

/-- A plan for a disk `data` of `1TiB` in the project `proj-1`. -/
def examplePlan : diskResourceModel :=
  { ID := TfString.unknown, ProjectID := TfString.value "proj-1",
    Location := TfString.value "us-east1-a", Name := TfString.value "data",
    Type_ := TfString.null, Size := TfString.value "1TiB",
    SerialNumber := TfString.unknown, BlockSize := TfInt64.null }

/-- An environment to evaluate the resource in: the API refuses a disk without a size and
a resize or delete without a disk ID, the operation `op-1` resolves to the disk `disk-1`,
the fallback project is `proj-0`, and a UUID is a string of 36 characters. -/
def exampleEnv : Env :=
  { CreateDisk := fun r _ =>
      if r.Size = "" then Except.error "size is required"
      else Except.ok { Operation := { OperationId := "op-1", State := "IN_PROGRESS" } },
    ResizeDisk := fun _ _ diskID =>
      if diskID = "" then Except.error "disk not found"
      else Except.ok { Operation := { OperationId := "op-2", State := "IN_PROGRESS" } },
    DeleteDisk := fun _ diskID =>
      if diskID = "" then Except.error "disk not found"
      else Except.ok { Operation := { OperationId := "op-3", State := "IN_PROGRESS" } },
    AwaitOperationAndResolve := fun op _ =>
      if op.OperationId = "op-1" then
        Except.ok { Id := "disk-1", Name := "data", Type_ := "persistent-ssd",
                    Size := "1024GiB", Location := "us-east1-a", SerialNumber := "SN-1",
                    BlockSize := 4096 }
      else Except.error "operation failed",
    AwaitOperation := fun op _ => Except.ok op,
    GetFallbackProject := fun diags => (diags, Except.ok "proj-0"),
    GetProjectIDOrFallback := fun diags projectID =>
      if projectID = "" then (diags, Except.ok "00000000-0000-0000-0000-000000000000")
      else (diags, Except.ok projectID),
    UnpackAPIError := fun err => err,
    uuidParse := fun s =>
      if s.data.length = 36 then Except.ok () else Except.error "invalid UUID length",
    quote := fun s => "\"" ++ s ++ "\"" }

end disk

/-! ## Lemmas on the two loops of `getDisksDiff` -/

namespace vm

theorem matchedInOrig_iff (d : vmDiskResourceModel) (origDisks : List vmDiskResourceModel) :
    matchedInOrig d origDisks = true ↔ ∃ o ∈ origDisks, d.ID = o.ID ∧ d.Mode = o.Mode := by
  induction origDisks with
  | nil => simp [matchedInOrig]
  | cons o rest ih =>
    by_cases h : d.ID = o.ID ∧ d.Mode = o.Mode
    · simp [matchedInOrig, h]
    · simp only [matchedInOrig, if_neg h, ih, List.mem_cons, exists_eq_or_imp]
      tauto

theorem matchedInNew_iff (d : vmDiskResourceModel) (newDisks : List vmDiskResourceModel) :
    matchedInNew d newDisks = true ↔ ∃ n ∈ newDisks, n.ID = d.ID ∧ n.Mode = d.Mode := by
  induction newDisks with
  | nil => simp [matchedInNew]
  | cons n rest ih =>
    by_cases h : n.ID = d.ID ∧ n.Mode = d.Mode
    · simp [matchedInNew, h]
    · simp only [matchedInNew, if_neg h, ih, List.mem_cons, exists_eq_or_imp]
      tauto

theorem addedLoop_eq (origDisks newDisks : List vmDiskResourceModel)
    (acc : List DiskAttachment) :
    addedLoop origDisks newDisks acc
      = acc ++ (newDisks.filter (fun n => !matchedInOrig n origDisks)).map toAttachment := by
  induction newDisks generalizing acc with
  | nil => simp [addedLoop]
  | cons n rest ih =>
    cases h : matchedInOrig n origDisks
    · simp [addedLoop, h, ih, toAttachment]
    · simp [addedLoop, h, ih]

theorem removedLoop_eq (newDisks origDisks : List vmDiskResourceModel)
    (acc : List String) :
    removedLoop newDisks origDisks acc
      = acc ++ (origDisks.filter (fun o => !matchedInNew o newDisks)).map (fun o => o.ID) := by
  induction origDisks generalizing acc with
  | nil => simp [removedLoop]
  | cons o rest ih =>
    cases h : matchedInNew o newDisks
    · simp [removedLoop, h, ih]
    · simp [removedLoop, h, ih]

theorem getDisksDiff_fst (origDisks newDisks : List vmDiskResourceModel) :
    (getDisksDiff origDisks newDisks).1
      = (newDisks.filter (fun n => !matchedInOrig n origDisks)).map toAttachment := by
  simp [getDisksDiff, addedLoop_eq]

theorem getDisksDiff_snd (origDisks newDisks : List vmDiskResourceModel) :
    (getDisksDiff origDisks newDisks).2
      = (origDisks.filter (fun o => !matchedInNew o newDisks)).map (fun o => o.ID) := by
  simp [getDisksDiff, removedLoop_eq]

theorem matchedInOrig_of_mem {d : vmDiskResourceModel} {origDisks : List vmDiskResourceModel}
    (h : d ∈ origDisks) : matchedInOrig d origDisks = true :=
  (matchedInOrig_iff d origDisks).2 ⟨d, h, rfl, rfl⟩

theorem matchedInNew_of_mem {d : vmDiskResourceModel} {newDisks : List vmDiskResourceModel}
    (h : d ∈ newDisks) : matchedInNew d newDisks = true :=
  (matchedInNew_iff d newDisks).2 ⟨d, h, rfl, rfl⟩

theorem matchedInOrig_eq_false_iff (d : vmDiskResourceModel)
    (origDisks : List vmDiskResourceModel) :
    matchedInOrig d origDisks = false ↔ ∀ o ∈ origDisks, ¬(d.ID = o.ID ∧ d.Mode = o.Mode) := by
  rw [← Bool.not_eq_true, matchedInOrig_iff]
  push_neg
  rfl

theorem matchedInNew_eq_false_iff (d : vmDiskResourceModel)
    (newDisks : List vmDiskResourceModel) :
    matchedInNew d newDisks = false ↔ ∀ n ∈ newDisks, ¬(n.ID = d.ID ∧ n.Mode = d.Mode) := by
  rw [← Bool.not_eq_true, matchedInNew_iff]
  push_neg
  rfl

/-! ## Properties of `getDisksDiff` -/

/-- C1: `getDisksDiff` classifies by the composite (ID, Mode) key. `disksAdded` is, in
order, one entry (ID, AttachmentType, Mode) for each new disk that no original disk
equals in both ID and Mode, and nothing else; `disksRemoved` is, in order, the ID of each
original disk that no new disk equals in both ID and Mode, and nothing else. -/
theorem getDisksDiff_composite_key (origDisks newDisks : List vmDiskResourceModel) :
    (getDisksDiff origDisks newDisks).1
        = (newDisks.filter (fun n =>
            decide (∀ o ∈ origDisks, ¬(o.ID = n.ID ∧ o.Mode = n.Mode)))).map
            (fun n => { DiskId := n.ID, AttachmentType := n.AttachmentType, Mode := n.Mode })
    ∧ (getDisksDiff origDisks newDisks).2
        = (origDisks.filter (fun o =>
            decide (∀ n ∈ newDisks, ¬(n.ID = o.ID ∧ n.Mode = o.Mode)))).map (fun o => o.ID) := by
  rw [getDisksDiff_fst, getDisksDiff_snd]
  refine ⟨?_, ?_⟩
  · have hf : (fun n => !matchedInOrig n origDisks)
        = (fun n => decide (∀ o ∈ origDisks, ¬(o.ID = n.ID ∧ o.Mode = n.Mode))) := by
      funext n
      cases h : matchedInOrig n origDisks
      · have h2 := (matchedInOrig_eq_false_iff n origDisks).1 h
        have h3 : ∀ o ∈ origDisks, ¬(o.ID = n.ID ∧ o.Mode = n.Mode) :=
          fun o ho hc => h2 o ho ⟨hc.1.symm, hc.2.symm⟩
        simp only [Bool.not_false, decide_eq_true h3]
      · obtain ⟨o, ho, h1, h2⟩ := (matchedInOrig_iff n origDisks).1 h
        have h3 : ¬ ∀ o ∈ origDisks, ¬(o.ID = n.ID ∧ o.Mode = n.Mode) :=
          fun hc => hc o ho ⟨h1.symm, h2.symm⟩
        simp only [Bool.not_true, decide_eq_false h3]
    rw [hf]
    rfl
  · have hf : (fun o => !matchedInNew o newDisks)
        = (fun o => decide (∀ n ∈ newDisks, ¬(n.ID = o.ID ∧ n.Mode = o.Mode))) := by
      funext o
      cases h : matchedInNew o newDisks
      · have h2 := (matchedInNew_eq_false_iff o newDisks).1 h
        simp only [Bool.not_false, decide_eq_true h2]
      · obtain ⟨n, hn, h1, h2⟩ := (matchedInNew_iff o newDisks).1 h
        have h3 : ¬ ∀ n ∈ newDisks, ¬(n.ID = o.ID ∧ n.Mode = o.Mode) :=
          fun hc => hc n hn ⟨h1, h2⟩
        simp only [Bool.not_true, decide_eq_false h3]
    rw [hf]

/-- C2: for every sequence `X` of disk records, also one with duplicates,
`getDisksDiff X X` has an empty `disksAdded` and an empty `disksRemoved`. -/
theorem getDisksDiff_self (X : List vmDiskResourceModel) :
    getDisksDiff X X = ([], []) := by
  have h1 : (getDisksDiff X X).1 = [] := by
    rw [getDisksDiff_fst, List.map_eq_nil_iff, List.filter_eq_nil_iff]
    intro a ha
    simp [matchedInOrig_of_mem ha]
  have h2 : (getDisksDiff X X).2 = [] := by
    rw [getDisksDiff_snd, List.map_eq_nil_iff, List.filter_eq_nil_iff]
    intro a ha
    simp [matchedInNew_of_mem ha]
  exact Prod.ext h1 h2

/-- C3: the empty-side cases of `getDisksDiff`. With an empty observed side, `disksAdded`
is one entry per desired record (its ID, AttachmentType and Mode) and `disksRemoved` is
empty; with an empty desired side, `disksAdded` is empty and `disksRemoved` is the ID of
every observed record; and whenever no record of `O` shares both ID and Mode with a record
of `D`, `disksAdded` is one entry per record of `D` and `disksRemoved` the ID of every
record of `O`. -/
theorem getDisksDiff_disjoint :
    (∀ D : List vmDiskResourceModel,
      getDisksDiff [] D
        = (D.map (fun d =>
            { DiskId := d.ID, AttachmentType := d.AttachmentType, Mode := d.Mode }), []))
    ∧ (∀ O : List vmDiskResourceModel,
      getDisksDiff O [] = ([], O.map (fun o => o.ID)))
    ∧ (∀ O D : List vmDiskResourceModel,
      (∀ o ∈ O, ∀ d ∈ D, ¬(o.ID = d.ID ∧ o.Mode = d.Mode)) →
      getDisksDiff O D
        = (D.map (fun d =>
            { DiskId := d.ID, AttachmentType := d.AttachmentType, Mode := d.Mode }),
           O.map (fun o => o.ID))) := by
  have key : ∀ A B : List vmDiskResourceModel,
      (∀ o ∈ A, ∀ d ∈ B, ¬(o.ID = d.ID ∧ o.Mode = d.Mode)) →
      getDisksDiff A B = (B.map toAttachment, A.map (fun o => o.ID)) := by
    intro A B hAB
    have h1 : (getDisksDiff A B).1 = B.map toAttachment := by
      rw [getDisksDiff_fst]
      congr 1
      rw [List.filter_eq_self]
      intro d hd
      have : matchedInOrig d A = false :=
        (matchedInOrig_eq_false_iff d A).2
          (fun o ho hc => hAB o ho d hd ⟨hc.1.symm, hc.2.symm⟩)
      simp [this]
    have h2 : (getDisksDiff A B).2 = A.map (fun o => o.ID) := by
      rw [getDisksDiff_snd]
      congr 1
      rw [List.filter_eq_self]
      intro o ho
      have : matchedInNew o B = false :=
        (matchedInNew_eq_false_iff o B).2
          (fun d hd hc => hAB o ho d hd ⟨hc.1.symm, hc.2.symm⟩)
      simp [this]
    exact Prod.ext h1 h2
  refine ⟨fun D => ?_, fun O => ?_, fun O D h => key O D h⟩
  · simpa using key [] D (by simp)
  · simpa using key O [] (by simp)

/-- C3 at a concrete input: observed `[{a, rw}]` and desired `[{b, ro}]` share no
(ID, Mode) pair. -/
theorem getDisksDiff_disjoint_witness :
    getDisksDiff [⟨"a", "data", "rw"⟩] [⟨"b", "data", "ro"⟩]
      = ([{ DiskId := "b", AttachmentType := "data", Mode := "ro" }], ["a"]) :=
  getDisksDiff_disjoint.2.2 [⟨"a", "data", "rw"⟩] [⟨"b", "data", "ro"⟩] (by decide)

/-- C4: a role change is a detach plus a re-attach. For an observed sequence
`O = pre ++ d :: post` whose disk IDs are pairwise distinct and a mode `m` other than
`d.Mode`, with `D` equal to `O` except that the Mode of `d` is `m`, `getDisksDiff O D`
returns `disksRemoved = [d.ID]` and as `disksAdded` the single entry with DiskId `d.ID`,
Mode `m` and the AttachmentType of `d`. -/
theorem getDisksDiff_role_change (pre post : List vmDiskResourceModel)
    (d : vmDiskResourceModel) (m : String)
    (hids : ((pre ++ d :: post).map (fun o => o.ID)).Nodup) (hm : m ≠ d.Mode) :
    getDisksDiff (pre ++ d :: post) (pre ++ { d with Mode := m } :: post)
      = ([{ DiskId := d.ID, AttachmentType := d.AttachmentType, Mode := m }], [d.ID]) := by
  rw [List.map_append, List.map_cons, List.nodup_append] at hids
  obtain ⟨_, hcons, hdisj⟩ := hids
  have hpost : d.ID ∉ post.map (fun o => o.ID) := (List.nodup_cons.1 hcons).1
  have hpre : d.ID ∉ pre.map (fun o => o.ID) :=
    fun hc => hdisj hc (List.mem_cons_self _ _)
  have hne_pre : ∀ x ∈ pre, x.ID ≠ d.ID :=
    fun x hx hc => hpre (hc ▸ List.mem_map_of_mem (fun o => o.ID) hx)
  have hne_post : ∀ x ∈ post, x.ID ≠ d.ID :=
    fun x hx hc => hpost (hc ▸ List.mem_map_of_mem (fun o => o.ID) hx)
  have hadd_d : matchedInOrig { d with Mode := m } (pre ++ d :: post) = false := by
    rw [matchedInOrig_eq_false_iff]
    intro o ho hc
    rcases List.mem_append.1 ho with h | h
    · exact hne_pre o h hc.1.symm
    · rcases List.mem_cons.1 h with h | h
      · subst h
        exact hm hc.2
      · exact hne_post o h hc.1.symm
  have hrem_d : matchedInNew d (pre ++ { d with Mode := m } :: post) = false := by
    rw [matchedInNew_eq_false_iff]
    intro n hn hc
    rcases List.mem_append.1 hn with h | h
    · exact hne_pre n h hc.1
    · rcases List.mem_cons.1 h with h | h
      · subst h
        exact hm hc.2
      · exact hne_post n h hc.1
  have hadd_pre : pre.filter (fun n => !matchedInOrig n (pre ++ d :: post)) = [] := by
    rw [List.filter_eq_nil_iff]
    intro x hx
    simp [matchedInOrig_of_mem (List.mem_append_left (d :: post) hx)]
  have hadd_post : post.filter (fun n => !matchedInOrig n (pre ++ d :: post)) = [] := by
    rw [List.filter_eq_nil_iff]
    intro x hx
    simp [matchedInOrig_of_mem (List.mem_append_right pre (List.mem_cons_of_mem d hx))]
  have hrem_pre : pre.filter
      (fun o => !matchedInNew o (pre ++ { d with Mode := m } :: post)) = [] := by
    rw [List.filter_eq_nil_iff]
    intro x hx
    simp [matchedInNew_of_mem (List.mem_append_left ({ d with Mode := m } :: post) hx)]
  have hrem_post : post.filter
      (fun o => !matchedInNew o (pre ++ { d with Mode := m } :: post)) = [] := by
    rw [List.filter_eq_nil_iff]
    intro x hx
    simp [matchedInNew_of_mem
      (List.mem_append_right pre (List.mem_cons_of_mem { d with Mode := m } hx))]
  have h1 : (getDisksDiff (pre ++ d :: post) (pre ++ { d with Mode := m } :: post)).1
      = [{ DiskId := d.ID, AttachmentType := d.AttachmentType, Mode := m }] := by
    rw [getDisksDiff_fst, List.filter_append, List.filter_cons, hadd_pre, hadd_post, hadd_d]
    rfl
  have h2 : (getDisksDiff (pre ++ d :: post) (pre ++ { d with Mode := m } :: post)).2
      = [d.ID] := by
    rw [getDisksDiff_snd, List.filter_append, List.filter_cons, hrem_pre, hrem_post, hrem_d]
    rfl
  exact Prod.ext h1 h2

/-- C4 at a concrete input: of the observed `[{a, rw}, {b, ro}]` the disk `b` changes
its role from `ro` to `rw`. -/
theorem getDisksDiff_role_change_witness :
    getDisksDiff [⟨"a", "data", "rw"⟩, ⟨"b", "data", "ro"⟩]
        [⟨"a", "data", "rw"⟩, ⟨"b", "data", "rw"⟩]
      = ([{ DiskId := "b", AttachmentType := "data", Mode := "rw" }], ["b"]) :=
  getDisksDiff_role_change [⟨"a", "data", "rw"⟩] [] ⟨"b", "data", "ro"⟩ "rw"
    (by decide) (by decide)

/-- C5: the two sides of the result of `getDisksDiff` are disjoint. No entry of
`disksAdded` has the (DiskId, Mode) of an original disk, so of none that contributed
its ID to `disksRemoved`; an original disk that some new disk equals in ID and Mode adds
nothing to `disksRemoved` (the result is that of the disks before it followed by that of
the disks after it), and a new disk that some original disk equals in ID and Mode adds
nothing to `disksAdded`. -/
theorem getDisksDiff_sides_disjoint (origDisks newDisks : List vmDiskResourceModel) :
    (∀ a ∈ (getDisksDiff origDisks newDisks).1, ∀ o ∈ origDisks,
        ¬(a.DiskId = o.ID ∧ a.Mode = o.Mode))
    ∧ (∀ pre o post, origDisks = pre ++ o :: post →
        (∃ n ∈ newDisks, n.ID = o.ID ∧ n.Mode = o.Mode) →
        (getDisksDiff origDisks newDisks).2
          = (getDisksDiff pre newDisks).2 ++ (getDisksDiff post newDisks).2)
    ∧ (∀ pre n post, newDisks = pre ++ n :: post →
        (∃ o ∈ origDisks, n.ID = o.ID ∧ n.Mode = o.Mode) →
        (getDisksDiff origDisks newDisks).1
          = (getDisksDiff origDisks pre).1 ++ (getDisksDiff origDisks post).1) := by
  refine ⟨?_, ?_, ?_⟩
  · intro a ha o ho hc
    rw [getDisksDiff_fst, List.mem_map] at ha
    obtain ⟨n, hn, rfl⟩ := ha
    have hn2 := (List.mem_filter.1 hn).2
    have hmatch : matchedInOrig n origDisks = true :=
      (matchedInOrig_iff n origDisks).2 ⟨o, ho, hc⟩
    simp [hmatch] at hn2
  · intro pre o post heq hex
    subst heq
    have hmatch : matchedInNew o newDisks = true := (matchedInNew_iff o newDisks).2 hex
    simp [getDisksDiff_snd, List.filter_append, List.filter_cons, hmatch]
  · intro pre n post heq hex
    subst heq
    have hmatch : matchedInOrig n origDisks = true := (matchedInOrig_iff n origDisks).2 hex
    simp [getDisksDiff_fst, List.filter_append, List.filter_cons, hmatch]

/-- C6: pure additions cause no detach. When every original disk has a new disk with the
same ID and Mode, `disksRemoved` is empty and `disksAdded` holds exactly the new disks
that match no original disk. -/
theorem getDisksDiff_pure_addition (origDisks newDisks : List vmDiskResourceModel)
    (h : ∀ o ∈ origDisks, ∃ n ∈ newDisks, n.ID = o.ID ∧ n.Mode = o.Mode) :
    (getDisksDiff origDisks newDisks).2 = []
    ∧ (getDisksDiff origDisks newDisks).1
        = (newDisks.filter (fun n =>
            decide (¬ ∃ o ∈ origDisks, n.ID = o.ID ∧ n.Mode = o.Mode))).map
            (fun n => { DiskId := n.ID, AttachmentType := n.AttachmentType, Mode := n.Mode }) := by
  refine ⟨?_, ?_⟩
  · rw [getDisksDiff_snd, List.map_eq_nil_iff, List.filter_eq_nil_iff]
    intro o ho
    simp [(matchedInNew_iff o newDisks).2 (h o ho)]
  · rw [getDisksDiff_fst]
    have hf : (fun n => !matchedInOrig n origDisks)
        = (fun n => decide (¬ ∃ o ∈ origDisks, n.ID = o.ID ∧ n.Mode = o.Mode)) := by
      funext n
      cases hn : matchedInOrig n origDisks
      · have h2 : ¬ ∃ o ∈ origDisks, n.ID = o.ID ∧ n.Mode = o.Mode := by
          rw [← matchedInOrig_iff, hn]
          exact Bool.false_ne_true
        simp only [Bool.not_false, decide_eq_true h2]
      · have h2 : ¬ ¬ ∃ o ∈ origDisks, n.ID = o.ID ∧ n.Mode = o.Mode :=
          not_not_intro ((matchedInOrig_iff n origDisks).1 hn)
        simp only [Bool.not_true, decide_eq_false h2]
    rw [hf]
    rfl

/-- C6 at the input of the spec: observed `[{a, rw}]`, desired `[{a, rw}, {b, ro}]` give
one entry to attach, `{b, ro}`, and nothing to detach. -/
theorem getDisksDiff_pure_addition_witness :
    ((getDisksDiff [⟨"a", "data", "rw"⟩] [⟨"a", "data", "rw"⟩, ⟨"b", "data", "ro"⟩]).2 = []
      ∧ (getDisksDiff [⟨"a", "data", "rw"⟩] [⟨"a", "data", "rw"⟩, ⟨"b", "data", "ro"⟩]).1
        = [{ DiskId := "b", AttachmentType := "data", Mode := "ro" }]) :=
  ⟨(getDisksDiff_pure_addition [⟨"a", "data", "rw"⟩]
      [⟨"a", "data", "rw"⟩, ⟨"b", "data", "ro"⟩] (by decide)).1,
   by decide⟩

/-- C7, as stated, fails: with observed `[{a, rw}]` and desired `[{a, ro}]` the new disk
has the ID of an original disk and is reported in `disksAdded`, and the original disk has
the ID of a new disk and its ID is reported in `disksRemoved`. -/
theorem getDisksDiff_by_id_counterexample :
    (∃ n ∈ [(⟨"a", "data", "ro"⟩ : vmDiskResourceModel)],
        (∃ o ∈ [(⟨"a", "data", "rw"⟩ : vmDiskResourceModel)], n.ID = o.ID)
        ∧ toAttachment n ∈ (getDisksDiff [⟨"a", "data", "rw"⟩] [⟨"a", "data", "ro"⟩]).1)
    ∧ (∃ o ∈ [(⟨"a", "data", "rw"⟩ : vmDiskResourceModel)],
        (∃ n ∈ [(⟨"a", "data", "ro"⟩ : vmDiskResourceModel)], n.ID = o.ID)
        ∧ o.ID ∈ (getDisksDiff [⟨"a", "data", "rw"⟩] [⟨"a", "data", "ro"⟩]).2) := by
  decide

/-- C7, amended: the diff is defined by disk ID and Mode together. A new disk whose ID
and Mode both equal those of some original disk is not reported in `disksAdded`; every ID
reported in `disksRemoved` is that of an original disk which no new disk equals in both
ID and Mode; and when the original IDs are pairwise distinct, an original disk whose ID
and Mode both equal those of some new disk does not have its ID in `disksRemoved`. -/
theorem getDisksDiff_by_id_and_mode (origDisks newDisks : List vmDiskResourceModel) :
    (∀ n ∈ newDisks, (∃ o ∈ origDisks, n.ID = o.ID ∧ n.Mode = o.Mode) →
        toAttachment n ∉ (getDisksDiff origDisks newDisks).1)
    ∧ (∀ s ∈ (getDisksDiff origDisks newDisks).2,
        ∃ o ∈ origDisks, o.ID = s ∧ ∀ n ∈ newDisks, ¬(n.ID = o.ID ∧ n.Mode = o.Mode))
    ∧ ((origDisks.map (fun o => o.ID)).Nodup →
        ∀ o ∈ origDisks, (∃ n ∈ newDisks, n.ID = o.ID ∧ n.Mode = o.Mode) →
          o.ID ∉ (getDisksDiff origDisks newDisks).2) := by
  have hrem : ∀ s ∈ (getDisksDiff origDisks newDisks).2,
      ∃ o ∈ origDisks, o.ID = s ∧ ∀ n ∈ newDisks, ¬(n.ID = o.ID ∧ n.Mode = o.Mode) := by
    intro s hs
    rw [getDisksDiff_snd, List.mem_map] at hs
    obtain ⟨o, ho, rfl⟩ := hs
    obtain ⟨ho1, ho2⟩ := List.mem_filter.1 ho
    refine ⟨o, ho1, rfl, (matchedInNew_eq_false_iff o newDisks).1 ?_⟩
    simpa using ho2
  refine ⟨?_, hrem, ?_⟩
  · intro n _ hex hc
    rw [getDisksDiff_fst, List.mem_map] at hc
    obtain ⟨x, hx, hxe⟩ := hc
    have hx2 := (List.mem_filter.1 hx).2
    obtain ⟨o, ho, h1, h2⟩ := hex
    have hid : x.ID = n.ID := congrArg DiskAttachment.DiskId hxe
    have hmode : x.Mode = n.Mode := congrArg DiskAttachment.Mode hxe
    have hmatch : matchedInOrig x origDisks = true :=
      (matchedInOrig_iff x origDisks).2 ⟨o, ho, hid.trans h1, hmode.trans h2⟩
    simp [hmatch] at hx2
  · intro hnd o ho hex hc
    obtain ⟨o2, ho2, hid, hno⟩ := hrem o.ID hc
    have : o2 = o := List.inj_on_of_nodup_map hnd ho2 ho hid
    subst this
    obtain ⟨n, hn, h1⟩ := hex
    exact hno n hn h1

end vm

/-! ## Lemmas on the library functions of `formatSize` -/

namespace disk

theorem hasSuffix_iff (s suffix : String) :
    HasSuffix s suffix = true ↔ suffix.data <:+ s.data := by
  unfold HasSuffix
  exact List.isSuffixOf_iff_suffix

theorem hasSuffix_append (s suffix : String) : HasSuffix (s ++ suffix) suffix = true := by
  rw [hasSuffix_iff, String.data_append]
  exact List.suffix_append _ _

theorem utf8EncodeChar_ascii (c : Char) (h : c.val ≤ 127) :
    String.utf8EncodeChar c = [c.val.toUInt8] := by
  simp [String.utf8EncodeChar, h]

theorem digit_byte (c : Char) (h : c.isDigit = true) :
    (48 : UInt8) ≤ c.val.toUInt8 ∧ c.val.toUInt8 ≤ (57 : UInt8)
      ∧ (c.val.toUInt8).toNat = c.toNat ∧ c.val ≤ 127 := by
  simp only [Char.isDigit, Bool.and_eq_true, decide_eq_true_eq, ge_iff_le] at h
  obtain ⟨h1, h2⟩ := h
  have h1n : 48 ≤ c.val.toNat := h1
  have h2n : c.val.toNat ≤ 57 := h2
  have hb : (c.val.toUInt8).toNat = c.val.toNat := by
    show (UInt8.ofNat c.val.toNat).toNat = c.val.toNat
    simp [UInt8.toNat, UInt8.ofNat]
    omega
  refine ⟨?_, ?_, ?_, ?_⟩
  · show (48 : UInt8).toNat ≤ (c.val.toUInt8).toNat
    rw [hb]
    exact h1n
  · show (c.val.toUInt8).toNat ≤ (57 : UInt8).toNat
    rw [hb]
    exact h2n
  · rw [hb]
    rfl
  · show c.val.toNat ≤ (127 : UInt32).toNat
    exact le_trans h2n (by decide)

theorem utf8Bytes_digits (ds : List Char) (hdig : ∀ c ∈ ds, c.isDigit = true) :
    ds.flatMap String.utf8EncodeChar = ds.map (fun c => c.val.toUInt8) := by
  induction ds with
  | nil => rfl
  | cons c rest ih =>
    have hc := digit_byte c (hdig c (List.mem_cons_self _ _))
    have hrest : ∀ x ∈ rest, x.isDigit = true := fun x hx => hdig x (List.mem_cons_of_mem _ hx)
    rw [List.flatMap_cons, List.map_cons, ih hrest, utf8EncodeChar_ascii c hc.2.2.2]
    rfl

theorem parseDigits_eq (ds : List Char) (hdig : ∀ c ∈ ds, c.isDigit = true) (n : Nat) :
    parseDigits (ds.map (fun c => c.val.toUInt8)) n
      = some (ds.foldl (fun n c => n * 10 + (c.toNat - 48)) n) := by
  induction ds generalizing n with
  | nil => rfl
  | cons c rest ih =>
    have hc := digit_byte c (hdig c (List.mem_cons_self _ _))
    have hrest : ∀ x ∈ rest, x.isDigit = true := fun x hx => hdig x (List.mem_cons_of_mem _ hx)
    have hcond : (48 : UInt8) ≤ c.val.toUInt8 ∧ c.val.toUInt8 ≤ (57 : UInt8) := ⟨hc.1, hc.2.1⟩
    simp only [List.map_cons, parseDigits, if_pos hcond, List.foldl_cons, hc.2.2.1]
    exact ih hrest _

theorem atoi_unsigned (ds : List Char) (hne : ds ≠ []) (hdig : ∀ c ∈ ds, c.isDigit = true) :
    Atoi (ds.map (fun c => c.val.toUInt8))
      = if decimalValue ds < 2 ^ 63 then some (decimalValue ds : Int) else none := by
  cases ds with
  | nil => exact absurd rfl hne
  | cons c rest =>
    have hc := digit_byte c (hdig c (List.mem_cons_self _ _))
    have hminus : c.val.toUInt8 ≠ 45 := by
      intro h
      have h48 := hc.1
      rw [h] at h48
      exact absurd h48 (by decide)
    have hplus : c.val.toUInt8 ≠ 43 := by
      intro h
      have h48 := hc.1
      rw [h] at h48
      exact absurd h48 (by decide)
    have hsign : ¬(c.val.toUInt8 = 45 ∨ c.val.toUInt8 = 43) := fun h => h.elim hminus hplus
    have hp := parseDigits_eq (c :: rest) hdig 0
    rw [List.map_cons] at hp
    simp only [List.map_cons, Atoi, if_neg hsign, if_neg hminus, reduceCtorEq, if_false, hp]
    rfl

theorem atoi_plus (bs : List UInt8) (un : Nat) (hbs : bs ≠ [])
    (hp : parseDigits bs 0 = some un) :
    Atoi (43 :: bs) = if un < 2 ^ 63 then some (un : Int) else none := by
  have h1 : (43 : UInt8) = 45 ∨ (43 : UInt8) = 43 := Or.inr rfl
  have h2 : ¬((43 : UInt8) = 45) := by decide
  simp only [Atoi, h1, h2, or_true, true_or, if_true, if_false, if_neg hbs, hp]

theorem atoi_minus (bs : List UInt8) (un : Nat) (hbs : bs ≠ [])
    (hp : parseDigits bs 0 = some un) :
    Atoi (45 :: bs) = if un ≤ 2 ^ 63 then some (-(un : Int)) else none := by
  have h1 : (45 : UInt8) = 45 ∨ (45 : UInt8) = 43 := Or.inl rfl
  simp only [Atoi, h1, or_true, true_or, if_true, if_neg hbs, hp]

theorem atoi_signed (sign ds : List Char)
    (hsign : sign = [] ∨ sign = ['+'] ∨ sign = ['-']) (hne : ds ≠ [])
    (hdig : ∀ c ∈ ds, c.isDigit = true) :
    Atoi (utf8Bytes ⟨sign ++ ds⟩)
      = if -(2 ^ 63) ≤ signedValue sign ds ∧ signedValue sign ds < 2 ^ 63
        then some (signedValue sign ds) else none := by
  have hmap : ds.map (fun c => c.val.toUInt8) ≠ [] := by
    intro h
    exact hne (List.map_eq_nil_iff.1 h)
  have hp : parseDigits (ds.map (fun c => c.val.toUInt8)) 0 = some (decimalValue ds) :=
    parseDigits_eq ds hdig 0
  rcases hsign with h | h | h
  · subst h
    have hv : signedValue [] ds = (decimalValue ds : Int) := rfl
    have hb : utf8Bytes ⟨[] ++ ds⟩ = ds.map (fun c => c.val.toUInt8) :=
      utf8Bytes_digits ds hdig
    rw [hb, hv, atoi_unsigned ds hne hdig]
    by_cases hfit : decimalValue ds < 2 ^ 63
    · have h2 : -(2 ^ 63) ≤ (decimalValue ds : Int) ∧ (decimalValue ds : Int) < 2 ^ 63 := by
        omega
      rw [if_pos hfit, if_pos h2]
    · have h2 : ¬(-(2 ^ 63) ≤ (decimalValue ds : Int) ∧ (decimalValue ds : Int) < 2 ^ 63) := by
        omega
      rw [if_neg hfit, if_neg h2]
  · subst h
    have hv : signedValue ['+'] ds = (decimalValue ds : Int) := rfl
    have hb : utf8Bytes ⟨['+'] ++ ds⟩ = 43 :: ds.map (fun c => c.val.toUInt8) := by
      simp only [utf8Bytes, List.flatMap_append, utf8Bytes_digits ds hdig]
      rfl
    rw [hb, hv, atoi_plus _ _ hmap hp]
    by_cases hfit : decimalValue ds < 2 ^ 63
    · have h2 : -(2 ^ 63) ≤ (decimalValue ds : Int) ∧ (decimalValue ds : Int) < 2 ^ 63 := by
        omega
      rw [if_pos hfit, if_pos h2]
    · have h2 : ¬(-(2 ^ 63) ≤ (decimalValue ds : Int) ∧ (decimalValue ds : Int) < 2 ^ 63) := by
        omega
      rw [if_neg hfit, if_neg h2]
  · subst h
    have hv : signedValue ['-'] ds = -(decimalValue ds : Int) := rfl
    have hb : utf8Bytes ⟨['-'] ++ ds⟩ = 45 :: ds.map (fun c => c.val.toUInt8) := by
      simp only [utf8Bytes, List.flatMap_append, utf8Bytes_digits ds hdig]
      rfl
    rw [hb, hv, atoi_minus _ _ hmap hp]
    by_cases hfit : decimalValue ds ≤ 2 ^ 63
    · have h2 : -(2 ^ 63) ≤ -(decimalValue ds : Int) ∧ -(decimalValue ds : Int) < 2 ^ 63 := by
        omega
      rw [if_pos hfit, if_pos h2]
    · have h2 : ¬(-(2 ^ 63) ≤ -(decimalValue ds : Int) ∧ -(decimalValue ds : Int) < 2 ^ 63) := by
        omega
      rw [if_neg hfit, if_neg h2]

theorem dropLast3_gib (pre : List Char) :
    dropLast3 ⟨pre ++ ['G', 'i', 'B']⟩ = utf8Bytes ⟨pre⟩ := by
  have h : utf8Bytes ⟨pre ++ ['G', 'i', 'B']⟩ = utf8Bytes ⟨pre⟩ ++ [71, 105, 66] := by
    simp only [utf8Bytes, List.flatMap_append]
    rfl
  simp [dropLast3, h]

theorem dropLast3_tib (pre : List Char) :
    dropLast3 ⟨pre ++ ['T', 'i', 'B']⟩ = utf8Bytes ⟨pre⟩ := by
  have h : utf8Bytes ⟨pre ++ ['T', 'i', 'B']⟩ = utf8Bytes ⟨pre⟩ ++ [84, 105, 66] := by
    simp only [utf8Bytes, List.flatMap_append]
    rfl
  simp [dropLast3, h]

theorem toLower_hasSuffix_gib (pre : List Char) :
    HasSuffix (ToLower ⟨pre ++ ['G', 'i', 'B']⟩) "gib" = true := by
  rw [hasSuffix_iff]
  simp only [ToLower, List.map_append]
  exact List.suffix_append _ _

theorem toLower_hasSuffix_tib (pre : List Char) :
    HasSuffix (ToLower ⟨pre ++ ['T', 'i', 'B']⟩) "tib" = true := by
  rw [hasSuffix_iff]
  simp only [ToLower, List.map_append]
  exact List.suffix_append _ _

theorem not_tib_of_gib (s : String) (h : HasSuffix s "gib" = true) :
    HasSuffix s "tib" = false := by
  rw [← Bool.not_eq_true, hasSuffix_iff]
  rw [hasSuffix_iff] at h
  intro h2
  obtain ⟨t1, ht1⟩ := h
  obtain ⟨t2, ht2⟩ := h2
  have h3 : (t1 ++ ['g', 'i', 'b']).reverse = (t2 ++ ['t', 'i', 'b']).reverse :=
    congrArg List.reverse (ht1.trans ht2.symm)
  simp only [List.reverse_append, List.reverse_cons, List.reverse_nil, List.nil_append,
    List.cons_append, List.cons.injEq, true_and] at h3
  exact absurd h3.1 (by decide)

theorem formatSize_tib_gib (format : String) (sign ds : List Char)
    (hsign : sign = [] ∨ sign = ['+'] ∨ sign = ['-']) (hne : ds ≠ [])
    (hdig : ∀ c ∈ ds, c.isDigit = true) (hfmt : HasSuffix (ToLower format) "tib" = true) :
    formatSize format ⟨sign ++ ds ++ ['G', 'i', 'B']⟩
      = if (-(2 ^ 63) ≤ signedValue sign ds ∧ signedValue sign ds < 2 ^ 63)
            ∧ 1024 ≤ signedValue sign ds ∧ signedValue sign ds % 1024 = 0
        then Itoa (signedValue sign ds / 1024) ++ "TiB"
        else ⟨sign ++ ds ++ ['G', 'i', 'B']⟩ := by
  unfold formatSize
  simp only [hfmt, toLower_hasSuffix_gib, Bool.and_self, if_true, dropLast3_gib,
    atoi_signed sign ds hsign hne hdig]
  by_cases hfit : -(2 ^ 63) ≤ signedValue sign ds ∧ signedValue sign ds < 2 ^ 63
  · simp only [hfit, true_and, and_self, if_true]
    by_cases hge : 1024 ≤ signedValue sign ds
    · have hmod : Int.tmod (signedValue sign ds) gibInTib = signedValue sign ds % 1024 :=
        Int.tmod_eq_emod (by omega) (by decide)
      have hdiv : Int.tdiv (signedValue sign ds) gibInTib = signedValue sign ds / 1024 :=
        Int.tdiv_eq_ediv (by omega) (by decide)
      have hge2 : signedValue sign ds ≥ gibInTib := hge
      simp only [hmod, hdiv, hge, hge2, true_and]
    · have hge2 : ¬ signedValue sign ds ≥ gibInTib := hge
      simp only [hge, hge2, false_and, if_false]
  · simp only [if_neg hfit, hfit, false_and, if_false]

theorem formatSize_gib_tib (format : String) (sign ds : List Char)
    (hsign : sign = [] ∨ sign = ['+'] ∨ sign = ['-']) (hne : ds ≠ [])
    (hdig : ∀ c ∈ ds, c.isDigit = true) (hfmt : HasSuffix (ToLower format) "gib" = true) :
    formatSize format ⟨sign ++ ds ++ ['T', 'i', 'B']⟩
      = if -(2 ^ 63) ≤ signedValue sign ds ∧ signedValue sign ds < 2 ^ 63
        then Itoa (wrapInt64 (signedValue sign ds * 1024)) ++ "GiB"
        else ⟨sign ++ ds ++ ['T', 'i', 'B']⟩ := by
  unfold formatSize
  simp only [hfmt, not_tib_of_gib _ hfmt, toLower_hasSuffix_tib, Bool.false_and,
    Bool.and_self, if_true, dropLast3_tib, atoi_signed sign ds hsign hne hdig,
    Bool.false_eq_true, if_false]
  by_cases hfit : -(2 ^ 63) ≤ signedValue sign ds ∧ signedValue sign ds < 2 ^ 63
  · simp only [if_pos hfit]
    rfl
  · simp only [if_neg hfit]

/-! ## Which strings have a lower-cased form that ends in `tib` or `gib` -/

theorem charToLower_eq_t (x : Char) : Char.toLower x = 't' ↔ x = 'T' ∨ x = 't' := by
  unfold Char.toLower
  by_cases hr : x.toNat ≥ 65 ∧ x.toNat ≤ 90
  · have hx : x = Char.ofNat x.toNat := (Char.ofNat_toNat x).symm
    obtain ⟨h1, h2⟩ := hr
    generalize x.toNat = n at hx h1 h2 ⊢
    subst hx
    interval_cases n <;> decide
  · simp only [if_neg hr]
    constructor
    · exact fun h => Or.inr h
    · rintro (h | h)
      · subst h
        exact absurd (by decide) hr
      · exact h

theorem charToLower_eq_i (x : Char) : Char.toLower x = 'i' ↔ x = 'I' ∨ x = 'i' := by
  unfold Char.toLower
  by_cases hr : x.toNat ≥ 65 ∧ x.toNat ≤ 90
  · have hx : x = Char.ofNat x.toNat := (Char.ofNat_toNat x).symm
    obtain ⟨h1, h2⟩ := hr
    generalize x.toNat = n at hx h1 h2 ⊢
    subst hx
    interval_cases n <;> decide
  · simp only [if_neg hr]
    constructor
    · exact fun h => Or.inr h
    · rintro (h | h)
      · subst h
        exact absurd (by decide) hr
      · exact h

theorem charToLower_eq_b (x : Char) : Char.toLower x = 'b' ↔ x = 'B' ∨ x = 'b' := by
  unfold Char.toLower
  by_cases hr : x.toNat ≥ 65 ∧ x.toNat ≤ 90
  · have hx : x = Char.ofNat x.toNat := (Char.ofNat_toNat x).symm
    obtain ⟨h1, h2⟩ := hr
    generalize x.toNat = n at hx h1 h2 ⊢
    subst hx
    interval_cases n <;> decide
  · simp only [if_neg hr]
    constructor
    · exact fun h => Or.inr h
    · rintro (h | h)
      · subst h
        exact absurd (by decide) hr
      · exact h

theorem charToLower_eq_g (x : Char) : Char.toLower x = 'g' ↔ x = 'G' ∨ x = 'g' := by
  unfold Char.toLower
  by_cases hr : x.toNat ≥ 65 ∧ x.toNat ≤ 90
  · have hx : x = Char.ofNat x.toNat := (Char.ofNat_toNat x).symm
    obtain ⟨h1, h2⟩ := hr
    generalize x.toNat = n at hx h1 h2 ⊢
    subst hx
    interval_cases n <;> decide
  · simp only [if_neg hr]
    constructor
    · exact fun h => Or.inr h
    · rintro (h | h)
      · subst h
        exact absurd (by decide) hr
      · exact h

theorem unicodeToLower_eq_t (x : Char) :
    unicodeToLower x = 't' ↔ x = 'T' ∨ x = 't' := by
  unfold unicodeToLower
  by_cases h0 : x = Char.ofNat 0x130
  · subst h0
    decide
  · rw [if_neg h0]
    exact charToLower_eq_t x

theorem unicodeToLower_eq_b (x : Char) :
    unicodeToLower x = 'b' ↔ x = 'B' ∨ x = 'b' := by
  unfold unicodeToLower
  by_cases h0 : x = Char.ofNat 0x130
  · subst h0
    decide
  · rw [if_neg h0]
    exact charToLower_eq_b x

theorem unicodeToLower_eq_g (x : Char) :
    unicodeToLower x = 'g' ↔ x = 'G' ∨ x = 'g' := by
  unfold unicodeToLower
  by_cases h0 : x = Char.ofNat 0x130
  · subst h0
    decide
  · rw [if_neg h0]
    exact charToLower_eq_g x

theorem unicodeToLower_eq_i (x : Char) :
    unicodeToLower x = 'i' ↔ x = 'I' ∨ x = 'i' ∨ x = Char.ofNat 0x130 := by
  unfold unicodeToLower
  by_cases h0 : x = Char.ofNat 0x130
  · subst h0
    decide
  · rw [if_neg h0, charToLower_eq_i]
    constructor
    · rintro (h | h)
      · exact Or.inl h
      · exact Or.inr (Or.inl h)
    · rintro (h | h | h)
      · exact Or.inl h
      · exact Or.inr h
      · exact absurd h h0

/-- The lower-cased form of a string ends in `tib` exactly when its last three characters
are `T` or `t`, then `I`, `i` or U+0130, then `B` or `b`. -/
theorem toLower_hasSuffix_tib_iff (s : String) :
    HasSuffix (ToLower s) "tib" = true
      ↔ ∃ pre a b c, s.data = pre ++ [a, b, c] ∧ (a = 'T' ∨ a = 't')
          ∧ (b = 'I' ∨ b = 'i' ∨ b = Char.ofNat 0x130) ∧ (c = 'B' ∨ c = 'b') := by
  rw [hasSuffix_iff]
  constructor
  · rintro ⟨t, ht⟩
    have ht2 : List.map unicodeToLower s.data = t ++ ['t', 'i', 'b'] := ht.symm
    obtain ⟨l1, l2, hl, _, h2⟩ := List.map_eq_append_iff.1 ht2
    obtain ⟨a, r1, hr1, ha, h3⟩ := List.map_eq_cons_iff.1 h2
    obtain ⟨b, r2, hr2, hb, h4⟩ := List.map_eq_cons_iff.1 h3
    obtain ⟨c, r3, hr3, hc, h5⟩ := List.map_eq_cons_iff.1 h4
    have hr3nil : r3 = [] := List.map_eq_nil_iff.1 h5
    refine ⟨l1, a, b, c, ?_, (unicodeToLower_eq_t a).1 ha, (unicodeToLower_eq_i b).1 hb,
      (unicodeToLower_eq_b c).1 hc⟩
    rw [hl, hr1, hr2, hr3, hr3nil]
  · rintro ⟨pre, a, b, c, hs, ha, hb, hc⟩
    refine ⟨pre.map unicodeToLower, ?_⟩
    show _ = List.map unicodeToLower s.data
    rw [hs, List.map_append, List.map_cons, List.map_cons, List.map_cons, List.map_nil,
      (unicodeToLower_eq_t a).2 ha, (unicodeToLower_eq_i b).2 hb, (unicodeToLower_eq_b c).2 hc]

/-- The lower-cased form of a string ends in `gib` exactly when its last three characters
are `G` or `g`, then `I`, `i` or U+0130, then `B` or `b`. -/
theorem toLower_hasSuffix_gib_iff (s : String) :
    HasSuffix (ToLower s) "gib" = true
      ↔ ∃ pre a b c, s.data = pre ++ [a, b, c] ∧ (a = 'G' ∨ a = 'g')
          ∧ (b = 'I' ∨ b = 'i' ∨ b = Char.ofNat 0x130) ∧ (c = 'B' ∨ c = 'b') := by
  rw [hasSuffix_iff]
  constructor
  · rintro ⟨t, ht⟩
    have ht2 : List.map unicodeToLower s.data = t ++ ['g', 'i', 'b'] := ht.symm
    obtain ⟨l1, l2, hl, _, h2⟩ := List.map_eq_append_iff.1 ht2
    obtain ⟨a, r1, hr1, ha, h3⟩ := List.map_eq_cons_iff.1 h2
    obtain ⟨b, r2, hr2, hb, h4⟩ := List.map_eq_cons_iff.1 h3
    obtain ⟨c, r3, hr3, hc, h5⟩ := List.map_eq_cons_iff.1 h4
    have hr3nil : r3 = [] := List.map_eq_nil_iff.1 h5
    refine ⟨l1, a, b, c, ?_, (unicodeToLower_eq_g a).1 ha, (unicodeToLower_eq_i b).1 hb,
      (unicodeToLower_eq_b c).1 hc⟩
    rw [hl, hr1, hr2, hr3, hr3nil]
  · rintro ⟨pre, a, b, c, hs, ha, hb, hc⟩
    refine ⟨pre.map unicodeToLower, ?_⟩
    show _ = List.map unicodeToLower s.data
    rw [hs, List.map_append, List.map_cons, List.map_cons, List.map_cons, List.map_nil,
      (unicodeToLower_eq_g a).2 ha, (unicodeToLower_eq_i b).2 hb, (unicodeToLower_eq_b c).2 hc]

/-! ## Properties of `formatSize` -/

/-- C8, as stated, fails. With the format `1TiB` and the size `512GiB` the result is
`512GiB`, which does not end in `TiB`; with the format `1GiB` and the size
`9223372036854775808TiB`, whose number does not fit a 64-bit `int`, the result is the
size unchanged, which does not end in `GiB`. -/
theorem formatSize_unit_counterexample :
    (HasSuffix (ToLower "1TiB") "tib" = true
      ∧ (∀ c ∈ ['5', '1', '2'], c.isDigit = true)
      ∧ "512GiB" = (⟨['5', '1', '2'] ++ ['G', 'i', 'B']⟩ : String)
      ∧ formatSize "1TiB" "512GiB" = "512GiB"
      ∧ HasSuffix (formatSize "1TiB" "512GiB") "TiB" = false)
    ∧ (HasSuffix (ToLower "1GiB") "gib" = true
      ∧ formatSize "1GiB" "9223372036854775808TiB" = "9223372036854775808TiB"
      ∧ HasSuffix (formatSize "1GiB" "9223372036854775808TiB") "GiB" = false) := by
  decide

/-- C8, amended. Let the size be a decimal integer `n`, written as an optional sign `+`
or `-` and one digit or more, followed by the unit. For every format whose lower-cased
form ends in `tib` and a size `n` followed by `GiB`, the result is `n / 1024` followed by
`TiB`, and so ends in `TiB`, when `n` fits a 64-bit `int`, is at least 1024 and is a
multiple of 1024; otherwise it is the size unchanged. For every format whose lower-cased
form ends in `gib` and a size `n` followed by `TiB`, the result is `n * 1024` (wrapped to
64 bits) followed by `GiB`, and so ends in `GiB`, when `n` fits a 64-bit `int`; otherwise
it is the size unchanged. -/
theorem formatSize_converts (format : String) (sign ds : List Char)
    (hsign : sign = [] ∨ sign = ['+'] ∨ sign = ['-']) (hne : ds ≠ [])
    (hdig : ∀ c ∈ ds, c.isDigit = true) :
    (HasSuffix (ToLower format) "tib" = true →
      formatSize format ⟨sign ++ ds ++ ['G', 'i', 'B']⟩
        = (if (-(2 ^ 63) ≤ signedValue sign ds ∧ signedValue sign ds < 2 ^ 63)
              ∧ 1024 ≤ signedValue sign ds ∧ signedValue sign ds % 1024 = 0
          then Itoa (signedValue sign ds / 1024) ++ "TiB"
          else ⟨sign ++ ds ++ ['G', 'i', 'B']⟩)
      ∧ ((-(2 ^ 63) ≤ signedValue sign ds ∧ signedValue sign ds < 2 ^ 63)
            ∧ 1024 ≤ signedValue sign ds ∧ signedValue sign ds % 1024 = 0 →
          HasSuffix (formatSize format ⟨sign ++ ds ++ ['G', 'i', 'B']⟩) "TiB" = true))
    ∧ (HasSuffix (ToLower format) "gib" = true →
      formatSize format ⟨sign ++ ds ++ ['T', 'i', 'B']⟩
        = (if -(2 ^ 63) ≤ signedValue sign ds ∧ signedValue sign ds < 2 ^ 63
          then Itoa (wrapInt64 (signedValue sign ds * 1024)) ++ "GiB"
          else ⟨sign ++ ds ++ ['T', 'i', 'B']⟩)
      ∧ (-(2 ^ 63) ≤ signedValue sign ds ∧ signedValue sign ds < 2 ^ 63 →
          HasSuffix (formatSize format ⟨sign ++ ds ++ ['T', 'i', 'B']⟩) "GiB" = true)) := by
  refine ⟨fun hfmt => ⟨formatSize_tib_gib format sign ds hsign hne hdig hfmt, fun hc => ?_⟩,
    fun hfmt => ⟨formatSize_gib_tib format sign ds hsign hne hdig hfmt, fun hc => ?_⟩⟩
  · rw [formatSize_tib_gib format sign ds hsign hne hdig hfmt, if_pos hc]
    exact hasSuffix_append _ _
  · rw [formatSize_gib_tib format sign ds hsign hne hdig hfmt, if_pos hc]
    exact hasSuffix_append _ _

/-- C8, amended, at concrete inputs. The format `1TİB`, written with U+0130 and
lower-cased to `1tib`, turns `2048GiB` into a size that ends in `TiB`, namely `2TiB`;
the format `1GiB` turns `-1TiB` into a size that ends in `GiB`, namely `-1024GiB`; and
the formats `1TiB` and `1GiB` turn `2048GiB` into `2TiB` and `2TiB` into `2048GiB`. -/
theorem formatSize_converts_witness :
    HasSuffix (formatSize "1TİB" ⟨[] ++ ['2', '0', '4', '8'] ++ ['G', 'i', 'B']⟩) "TiB"
      = true
    ∧ HasSuffix (formatSize "1GiB" ⟨['-'] ++ ['1'] ++ ['T', 'i', 'B']⟩) "GiB" = true
    ∧ formatSize "1TİB" "2048GiB" = "2TiB"
    ∧ formatSize "1GiB" "-1TiB" = "-1024GiB"
    ∧ formatSize "1TiB" "2048GiB" = "2TiB"
    ∧ formatSize "1GiB" "2TiB" = "2048GiB" :=
  ⟨((formatSize_converts "1TİB" [] ['2', '0', '4', '8'] (Or.inl rfl) (by decide)
      (by decide)).1 (by decide)).2 (by decide),
   ((formatSize_converts "1GiB" ['-'] ['1'] (Or.inr (Or.inr rfl)) (by decide)
      (by decide)).2 (by decide)).2 (by decide),
   by decide, by decide, by decide, by decide⟩

/-! ## Lemmas on diagnostics and on `strings.Split` -/

theorem mem_Append_left (diags more : Diagnostics) (x : Diagnostic) (h : x ∈ diags) :
    x ∈ Append diags more := by
  induction more generalizing diags with
  | nil => exact h
  | cons d rest ih =>
    unfold Append
    split
    · exact ih diags h
    · exact ih (diags ++ [d]) (List.mem_append_left _ h)

theorem mem_Append_right (diags more : Diagnostics) (x : Diagnostic) (h : x ∈ more) :
    x ∈ Append diags more := by
  induction more generalizing diags with
  | nil => exact absurd h (List.not_mem_nil x)
  | cons d rest ih =>
    unfold Append
    rcases List.mem_cons.1 h with hx | hx
    · subst hx
      split
      · exact mem_Append_left _ _ _ (by assumption)
      · exact mem_Append_left _ _ _ (List.mem_append_right _ (List.mem_singleton_self x))
    · split
      · exact ih diags hx
      · exact ih (diags ++ [d]) hx

theorem mem_AddError (diags : Diagnostics) (summary detail : String) :
    ({ severity := Severity.error, summary := summary, detail := detail } : Diagnostic)
      ∈ AddError diags summary detail :=
  mem_Append_right _ _ _ (List.mem_singleton_self _)

theorem hasError_of_mem (diags : Diagnostics) (x : Diagnostic) (h : x ∈ diags)
    (hx : x.severity = Severity.error) : HasError diags = true := by
  unfold HasError
  rw [List.any_eq_true]
  exact ⟨x, h, by simp [hx]⟩

theorem hasError_AddError (diags : Diagnostics) (summary detail : String) :
    HasError (AddError diags summary detail) = true :=
  hasError_of_mem _ _ (mem_AddError diags summary detail) rfl

theorem splitChars_ne_nil (sep : Char) (l : List Char) : splitChars sep l ≠ [] := by
  cases l with
  | nil => simp [splitChars]
  | cons c rest =>
    unfold splitChars
    split
    · simp
    · split <;> simp

theorem Split_ne_nil (s : String) (sep : Char) : Split s sep ≠ [] := by
  unfold Split
  simp [splitChars_ne_nil]

theorem importProjectID_none (fields : List String) (h : 3 ≤ fields.length) :
    importProjectID fields = none := by
  match fields, h with
  | _ :: _ :: _ :: _, _ => rfl

/-- The body of `ImportState` after the switch, for the disk ID and the project ID to
resolve that the switch leaves. -/
theorem ImportState_resolve (env : Env) (req : ImportStateRequest) (resp : Response)
    (diskID projectArg : String)
    (h : (Split req.ID ',' = [diskID] ∧ projectArg = "")
      ∨ Split req.ID ',' = [diskID, projectArg]) :
    ImportState env req resp
      = match env.GetProjectIDOrFallback resp.Diagnostics projectArg with
        | (diags, Except.error err) =>
          { Diagnostics := AddError diags "Failed to fetch project ID"
              ("No project was specified and it was not possible to determine which project to use: "
                ++ err),
            State := resp.State }
        | (diags, Except.ok projectID) =>
          match env.uuidParse diskID with
          | Except.error parseErr =>
            { Diagnostics := AddError diags "Invalid resource identifier"
                ("Failed to parse disk ID: " ++ parseErr),
              State := resp.State }
          | Except.ok _ =>
            match env.uuidParse projectID with
            | Except.error parseErr =>
              { Diagnostics := AddError diags "Invalid resource identifier"
                  ("Failed to parse project ID: " ++ parseErr),
                State := resp.State }
            | Except.ok _ =>
              { Diagnostics := diags,
                State := { resp.State with ID := TfString.value diskID,
                                           ProjectID := TfString.value projectID } } := by
  have hd : (Split req.ID ',').headD "" = diskID := by
    rcases h with ⟨h, _⟩ | h <;> rw [h] <;> rfl
  have hp : importProjectID (Split req.ID ',') = some projectArg := by
    rcases h with ⟨h, h2⟩ | h
    · rw [h, h2]
      rfl
    · rw [h]
      rfl
  unfold ImportState
  simp only [hd, hp]
  rcases env.GetProjectIDOrFallback resp.Diagnostics projectArg with ⟨diags, _ | projectID⟩
  · rfl
  · simp only
    cases env.uuidParse diskID with
    | error e => rfl
    | ok u =>
      simp only
      cases env.uuidParse projectID with
      | error e => rfl
      | ok u2 => simp [StateSetAttribute, Append]

/-! ## Properties of `ImportState` -/

/-- C9: `ImportState` accepts exactly the identifiers `disk_id` and
`disk_id,project_id`. With three fields or more the response gets the error
`Invalid resource identifier`, the state stays as it was, and the result does not depend
on the project fallback. With one field the project is resolved from the empty string, with
two fields from the second field; when the resolution fails or the disk ID or the resolved
project ID is no UUID the response gets an error and the state stays as it was; when all
succeed, `id` is the first field and `project_id` the resolved project. So the state
changes only when the project resolves and both parse as UUIDs. -/
theorem ImportState_identifier_shapes (env : Env) (req : ImportStateRequest)
    (resp : Response) :
    (3 ≤ (Split req.ID ',').length →
      ImportState env req resp
          = { Diagnostics := AddError resp.Diagnostics "Invalid resource identifier"
                ("Expected format disk_id,project_id, got " ++ env.quote req.ID),
              State := resp.State }
        ∧ ({ severity := Severity.error, summary := "Invalid resource identifier",
             detail := "Expected format disk_id,project_id, got " ++ env.quote req.ID }
            ∈ (ImportState env req resp).Diagnostics)
        ∧ (∀ env2 : Env, env2.quote = env.quote →
            ImportState env2 req resp = ImportState env req resp))
    ∧ (∀ diskID projectArg : String,
        (Split req.ID ',' = [diskID] ∧ projectArg = "")
          ∨ Split req.ID ',' = [diskID, projectArg] →
        (∀ err,
          (env.GetProjectIDOrFallback resp.Diagnostics projectArg).2 = Except.error err →
          ImportState env req resp
            = { Diagnostics :=
                  AddError (env.GetProjectIDOrFallback resp.Diagnostics projectArg).1
                    "Failed to fetch project ID"
                    ("No project was specified and it was not possible to determine which project to use: "
                      ++ err),
                State := resp.State })
        ∧ (∀ projectID,
          (env.GetProjectIDOrFallback resp.Diagnostics projectArg).2 = Except.ok projectID →
          (∀ parseErr, env.uuidParse diskID = Except.error parseErr →
            ImportState env req resp
              = { Diagnostics :=
                    AddError (env.GetProjectIDOrFallback resp.Diagnostics projectArg).1
                      "Invalid resource identifier" ("Failed to parse disk ID: " ++ parseErr),
                  State := resp.State })
          ∧ (∀ parseErr, env.uuidParse diskID = Except.ok () →
            env.uuidParse projectID = Except.error parseErr →
            ImportState env req resp
              = { Diagnostics :=
                    AddError (env.GetProjectIDOrFallback resp.Diagnostics projectArg).1
                      "Invalid resource identifier"
                      ("Failed to parse project ID: " ++ parseErr),
                  State := resp.State })
          ∧ (env.uuidParse diskID = Except.ok () →
            env.uuidParse projectID = Except.ok () →
            ImportState env req resp
              = { Diagnostics := (env.GetProjectIDOrFallback resp.Diagnostics projectArg).1,
                  State := { resp.State with ID := TfString.value diskID,
                                             ProjectID := TfString.value projectID } })))
    ∧ ((ImportState env req resp).State ≠ resp.State →
        ∃ diskID projectArg projectID,
          ((Split req.ID ',' = [diskID] ∧ projectArg = "")
            ∨ Split req.ID ',' = [diskID, projectArg])
          ∧ (env.GetProjectIDOrFallback resp.Diagnostics projectArg).2 = Except.ok projectID
          ∧ env.uuidParse diskID = Except.ok ()
          ∧ env.uuidParse projectID = Except.ok ()
          ∧ (ImportState env req resp).State
              = { resp.State with ID := TfString.value diskID,
                                  ProjectID := TfString.value projectID }) := by
  have hmany : ∀ e : Env, 3 ≤ (Split req.ID ',').length →
      ImportState e req resp
        = { Diagnostics := AddError resp.Diagnostics "Invalid resource identifier"
              ("Expected format disk_id,project_id, got " ++ e.quote req.ID),
            State := resp.State } := by
    intro e h3
    unfold ImportState
    simp only [importProjectID_none _ h3]
  have hfew : ∀ diskID projectArg : String,
      (Split req.ID ',' = [diskID] ∧ projectArg = "")
        ∨ Split req.ID ',' = [diskID, projectArg] →
      (∀ err,
        (env.GetProjectIDOrFallback resp.Diagnostics projectArg).2 = Except.error err →
        ImportState env req resp
          = { Diagnostics :=
                AddError (env.GetProjectIDOrFallback resp.Diagnostics projectArg).1
                  "Failed to fetch project ID"
                  ("No project was specified and it was not possible to determine which project to use: "
                    ++ err),
              State := resp.State })
      ∧ (∀ projectID,
        (env.GetProjectIDOrFallback resp.Diagnostics projectArg).2 = Except.ok projectID →
        (∀ parseErr, env.uuidParse diskID = Except.error parseErr →
          ImportState env req resp
            = { Diagnostics :=
                  AddError (env.GetProjectIDOrFallback resp.Diagnostics projectArg).1
                    "Invalid resource identifier" ("Failed to parse disk ID: " ++ parseErr),
                State := resp.State })
        ∧ (∀ parseErr, env.uuidParse diskID = Except.ok () →
          env.uuidParse projectID = Except.error parseErr →
          ImportState env req resp
            = { Diagnostics :=
                  AddError (env.GetProjectIDOrFallback resp.Diagnostics projectArg).1
                    "Invalid resource identifier"
                    ("Failed to parse project ID: " ++ parseErr),
                State := resp.State })
        ∧ (env.uuidParse diskID = Except.ok () →
          env.uuidParse projectID = Except.ok () →
          ImportState env req resp
            = { Diagnostics := (env.GetProjectIDOrFallback resp.Diagnostics projectArg).1,
                State := { resp.State with ID := TfString.value diskID,
                                           ProjectID := TfString.value projectID } })) := by
    intro diskID projectArg h
    rw [ImportState_resolve env req resp diskID projectArg h]
    rcases env.GetProjectIDOrFallback resp.Diagnostics projectArg with ⟨diags, r⟩
    refine ⟨?_, ?_⟩
    · intro err herr
      simp only at herr
      subst herr
      rfl
    · intro projectID hok
      simp only at hok
      subst hok
      refine ⟨?_, ?_, ?_⟩
      · intro parseErr h1
        simp only [h1]
      · intro parseErr h1 h2
        simp only [h1, h2]
      · intro h1 h2
        simp only [h1, h2]
  refine ⟨?_, hfew, ?_⟩
  · intro h3
    refine ⟨hmany env h3, ?_, ?_⟩
    · rw [hmany env h3]
      exact mem_AddError _ _ _
    · intro env2 hq
      rw [hmany env h3, hmany env2 h3, hq]
  · intro hne
    by_cases h3 : 3 ≤ (Split req.ID ',').length
    · exact absurd (by rw [hmany env h3]) hne
    · have hshape : ∃ diskID projectArg : String,
          (Split req.ID ',' = [diskID] ∧ projectArg = "")
            ∨ Split req.ID ',' = [diskID, projectArg] := by
        have hnil := Split_ne_nil req.ID ','
        match hs : Split req.ID ',' with
        | [] => exact absurd hs hnil
        | [a] => exact ⟨a, "", Or.inl ⟨rfl, rfl⟩⟩
        | [a, b] => exact ⟨a, b, Or.inr rfl⟩
        | _ :: _ :: _ :: _ =>
          rw [hs] at h3
          exact absurd (by simp) h3
      obtain ⟨diskID, projectArg, hshape⟩ := hshape
      obtain ⟨hE, hO⟩ := hfew diskID projectArg hshape
      cases hr : (env.GetProjectIDOrFallback resp.Diagnostics projectArg).2 with
      | error err => exact absurd (by rw [hE err hr]) hne
      | ok projectID =>
        obtain ⟨hA, hB, hC⟩ := hO projectID hr
        cases h1 : env.uuidParse diskID with
        | error e => exact absurd (by rw [hA e h1]) hne
        | ok u =>
          cases h2 : env.uuidParse projectID with
          | error e => exact absurd (by rw [hB e h1 h2]) hne
          | ok u2 =>
            exact ⟨diskID, projectArg, projectID, hshape, hr, h1, h2, by rw [hC h1 h2]⟩

/-- C9 at concrete inputs, in `exampleEnv`: the identifier `a,b,c` of three fields
leaves the null state as it is, and an identifier of two UUIDs sets `id` to the first
and `project_id` to the second. -/
theorem ImportState_identifier_shapes_witness :
    ImportState exampleEnv { ID := "a,b,c" } { Diagnostics := [], State := nullState }
      = { Diagnostics := AddError [] "Invalid resource identifier"
            ("Expected format disk_id,project_id, got " ++ exampleEnv.quote "a,b,c"),
          State := nullState }
    ∧ ImportState exampleEnv
        { ID := "123e4567-e89b-12d3-a456-426614174000,123e4567-e89b-12d3-a456-426614174001" }
        { Diagnostics := [], State := nullState }
      = { Diagnostics := [],
          State := { nullState with
            ID := TfString.value "123e4567-e89b-12d3-a456-426614174000",
            ProjectID := TfString.value "123e4567-e89b-12d3-a456-426614174001" } } :=
  ⟨((ImportState_identifier_shapes exampleEnv { ID := "a,b,c" }
      { Diagnostics := [], State := nullState }).1 (by decide)).1,
   (((ImportState_identifier_shapes exampleEnv
      { ID := "123e4567-e89b-12d3-a456-426614174000,123e4567-e89b-12d3-a456-426614174001" }
      { Diagnostics := [], State := nullState }).2.1
      "123e4567-e89b-12d3-a456-426614174000" "123e4567-e89b-12d3-a456-426614174001"
      (Or.inr (by decide))).2
      "123e4567-e89b-12d3-a456-426614174001" rfl).2.2 rfl rfl⟩

/-! ## Lemmas on `Create` -/

/-- `Create` reaches the call of `CreateDisk` when the plan is read without error and
the project is the one of the plan or, without one, the fallback project. -/
theorem Create_eq_createWithProject (env : Env) (req : CreateRequest) (resp : Response)
    (projectID : String) (diags : Diagnostics)
    (hplan : HasError (Append resp.Diagnostics req.PlanGet.2) = false)
    (hproj : (req.PlanGet.1.ProjectID.ValueString ≠ ""
        ∧ projectID = req.PlanGet.1.ProjectID.ValueString
        ∧ diags = Append resp.Diagnostics req.PlanGet.2)
      ∨ (req.PlanGet.1.ProjectID.ValueString = ""
        ∧ env.GetFallbackProject (Append resp.Diagnostics req.PlanGet.2)
            = (diags, Except.ok projectID))) :
    Create env req resp = createWithProject env req.PlanGet.1 projectID diags resp.State := by
  unfold Create
  simp only [hplan, Bool.false_eq_true, if_false]
  rcases hproj with ⟨h1, h2, h3⟩ | ⟨h1, h2⟩
  · rw [if_neg h1, h2, h3]
  · rw [if_pos h1, h2]

/-! ## Properties of `Create`, `Update` and `Delete` -/

/-- C10: failures of the remote operations propagate. In `Create`, `Update` and
`Delete`, once the method has read its plan or state without error (and `Create` has its
project), an error of the call that submits the mutation (`CreateDisk`, `ResizeDisk`,
`DeleteDisk`) or of the await of its operation leaves the state as it was and puts into
the response an error diagnostic whose summary names the failed action. When both
succeed in `Create`, the state written has `id`, `type`, `location`, `serial_number` and
`block_size` of the resolved disk and as `project_id` the project used for the call. -/
theorem disk_operation_failures_propagate (env : Env) (resp : Response) :
    (∀ (req : CreateRequest) (projectID : String) (diags : Diagnostics),
      HasError (Append resp.Diagnostics req.PlanGet.2) = false →
      ((req.PlanGet.1.ProjectID.ValueString ≠ ""
          ∧ projectID = req.PlanGet.1.ProjectID.ValueString
          ∧ diags = Append resp.Diagnostics req.PlanGet.2)
        ∨ (req.PlanGet.1.ProjectID.ValueString = ""
          ∧ env.GetFallbackProject (Append resp.Diagnostics req.PlanGet.2)
              = (diags, Except.ok projectID))) →
      (∀ err, env.CreateDisk (createRequest req.PlanGet.1) projectID = Except.error err →
        (Create env req resp).State = resp.State
        ∧ HasError (Create env req resp).Diagnostics = true
        ∧ { severity := Severity.error, summary := "Failed to create disk",
            detail := "There was an error starting a create disk operation (" ++ projectID
              ++ "): " ++ env.UnpackAPIError err }
          ∈ (Create env req resp).Diagnostics)
      ∧ (∀ dataResp err,
        env.CreateDisk (createRequest req.PlanGet.1) projectID = Except.ok dataResp →
        env.AwaitOperationAndResolve dataResp.Operation projectID = Except.error err →
        (Create env req resp).State = resp.State
        ∧ HasError (Create env req resp).Diagnostics = true
        ∧ { severity := Severity.error, summary := "Failed to create disk",
            detail := "There was an error creating a disk: " ++ env.UnpackAPIError err }
          ∈ (Create env req resp).Diagnostics)
      ∧ (∀ dataResp disk,
        env.CreateDisk (createRequest req.PlanGet.1) projectID = Except.ok dataResp →
        env.AwaitOperationAndResolve dataResp.Operation projectID = Except.ok disk →
        (Create env req resp).State
          = { ID := TfString.value disk.Id,
              ProjectID := TfString.value projectID,
              Location := TfString.value disk.Location,
              Name := req.PlanGet.1.Name,
              Type_ := TfString.value disk.Type_,
              Size := TfString.value (formatSize req.PlanGet.1.Size.ValueString disk.Size),
              SerialNumber := TfString.value disk.SerialNumber,
              BlockSize := TfInt64.value disk.BlockSize }))
    ∧ (∀ (req : UpdateRequest),
      HasError (Append resp.Diagnostics req.StateGet.2) = false →
      HasError (Append (Append resp.Diagnostics req.StateGet.2) req.PlanGet.2) = false →
      (∀ err,
        env.ResizeDisk { Size := req.PlanGet.1.Size.ValueString }
          req.PlanGet.1.ProjectID.ValueString req.PlanGet.1.ID.ValueString
          = Except.error err →
        (Update env req resp).State = resp.State
        ∧ HasError (Update env req resp).Diagnostics = true
        ∧ { severity := Severity.error, summary := "Failed to resize disk",
            detail := "There was an error starting a resize operation: "
              ++ env.UnpackAPIError err ++ resizeAdvice }
          ∈ (Update env req resp).Diagnostics)
      ∧ (∀ dataResp err,
        env.ResizeDisk { Size := req.PlanGet.1.Size.ValueString }
          req.PlanGet.1.ProjectID.ValueString req.PlanGet.1.ID.ValueString
          = Except.ok dataResp →
        env.AwaitOperationAndResolve dataResp.Operation req.PlanGet.1.ProjectID.ValueString
          = Except.error err →
        (Update env req resp).State = resp.State
        ∧ HasError (Update env req resp).Diagnostics = true
        ∧ { severity := Severity.error, summary := "Failed to resize disk",
            detail := "There was an error resizing a disk: "
              ++ env.UnpackAPIError err ++ resizeAdvice }
          ∈ (Update env req resp).Diagnostics))
    ∧ (∀ (req : DeleteRequest),
      (Delete env req resp).State = resp.State
      ∧ (HasError (Append resp.Diagnostics req.StateGet.2) = false →
        (∀ err,
          env.DeleteDisk req.StateGet.1.ProjectID.ValueString req.StateGet.1.ID.ValueString
            = Except.error err →
          HasError (Delete env req resp).Diagnostics = true
          ∧ { severity := Severity.error, summary := "Failed to delete disk",
              detail := "There was an error starting a delete disk operation: "
                ++ env.UnpackAPIError err }
            ∈ (Delete env req resp).Diagnostics)
        ∧ (∀ dataResp err,
          env.DeleteDisk req.StateGet.1.ProjectID.ValueString req.StateGet.1.ID.ValueString
            = Except.ok dataResp →
          env.AwaitOperation dataResp.Operation req.StateGet.1.ProjectID.ValueString
            = Except.error err →
          HasError (Delete env req resp).Diagnostics = true
          ∧ { severity := Severity.error, summary := "Failed to delete disk",
              detail := "There was an error deleting a disk: " ++ env.UnpackAPIError err }
            ∈ (Delete env req resp).Diagnostics))) := by
  refine ⟨?_, ?_, ?_⟩
  · intro req projectID diags hplan hproj
    rw [Create_eq_createWithProject env req resp projectID diags hplan hproj]
    refine ⟨?_, ?_, ?_⟩
    · intro err h1
      simp only [createWithProject, h1]
      exact ⟨trivial, hasError_AddError _ _ _, mem_AddError _ _ _⟩
    · intro dataResp err h1 h2
      simp only [createWithProject, h1, h2]
      exact ⟨trivial, hasError_AddError _ _ _, mem_AddError _ _ _⟩
    · intro dataResp disk h1 h2
      simp only [createWithProject, h1, h2, StateSet]
  · intro req hstate hplan
    refine ⟨?_, ?_⟩
    · intro err h1
      simp only [Update, hstate, hplan, h1, Bool.false_eq_true, if_false]
      exact ⟨trivial, hasError_AddError _ _ _, mem_AddError _ _ _⟩
    · intro dataResp err h1 h2
      simp only [Update, hstate, hplan, h1, h2, Bool.false_eq_true, if_false]
      exact ⟨trivial, hasError_AddError _ _ _, mem_AddError _ _ _⟩
  · intro req
    refine ⟨?_, ?_⟩
    · unfold Delete
      simp only
      split
      · rfl
      · split
        · rfl
        · split <;> rfl
    · intro hstate
      refine ⟨?_, ?_⟩
      · intro err h1
        simp only [Delete, hstate, h1, Bool.false_eq_true, if_false]
        exact ⟨hasError_AddError _ _ _, mem_AddError _ _ _⟩
      · intro dataResp err h1 h2
        simp only [Delete, hstate, h1, h2, Bool.false_eq_true, if_false]
        exact ⟨hasError_AddError _ _ _, mem_AddError _ _ _⟩

/-- C10 at concrete inputs, in `exampleEnv`: a plan without a size makes `CreateDisk`
fail and the state stays null; the plan `examplePlan` succeeds and the state written
takes `id`, `type`, `location`, `serial_number` and `block_size` from the disk and
`project_id` from the project of the call. -/
theorem disk_operation_failures_propagate_witness :
    (Create exampleEnv { PlanGet := ({ examplePlan with Size := TfString.null }, []) }
        { Diagnostics := [], State := nullState }).State = nullState
    ∧ (Create exampleEnv { PlanGet := (examplePlan, []) }
        { Diagnostics := [], State := nullState }).State
      = { ID := TfString.value "disk-1",
          ProjectID := TfString.value "proj-1",
          Location := TfString.value "us-east1-a",
          Name := TfString.value "data",
          Type_ := TfString.value "persistent-ssd",
          Size := TfString.value (formatSize "1TiB" "1024GiB"),
          SerialNumber := TfString.value "SN-1",
          BlockSize := TfInt64.value 4096 } :=
  ⟨(((disk_operation_failures_propagate exampleEnv
        { Diagnostics := [], State := nullState }).1
      { PlanGet := ({ examplePlan with Size := TfString.null }, []) } "proj-1" []
      (by decide) (Or.inl ⟨by decide, rfl, rfl⟩)).1 "size is required" rfl).1,
   ((disk_operation_failures_propagate exampleEnv
        { Diagnostics := [], State := nullState }).1
      { PlanGet := (examplePlan, []) } "proj-1" []
      (by decide) (Or.inl ⟨by decide, rfl, rfl⟩)).2.2
      { Operation := { OperationId := "op-1", State := "IN_PROGRESS" } }
      { Id := "disk-1", Name := "data", Type_ := "persistent-ssd", Size := "1024GiB",
        Location := "us-east1-a", SerialNumber := "SN-1", BlockSize := 4096 }
      rfl rfl⟩

end disk

end Crusoe
